import Mathlib

/-! ## terraform-provider-uptimerobot: the monitor resource and the alert-contact data source

A shallow embedding of `internal/provider/resource_uptimerobot_monitor.go` and
`internal/provider/data_source_uptimerobot_alert_contact.go`.

* Go strings are Lean strings (the valid UTF-8 ones); `strconv.Atoi`, `strings.HasPrefix`
  and `fmt.Sprintf("%d", _)` read them character by character, which agrees with Go's
  byte-wise reading whenever the characters they look for are ASCII.
* Go `int` is the 64-bit one: a value is an `Int` and the unsigned arithmetic of the
  parser is reduced modulo `2 ^ 64` where the Go code can wrap.
* `*schema.ResourceData` is the resource ID together with the values its layers (state,
  diff, `d.Set`) hold, read through the resource's schema; the SDK builds the one it hands
  to Create and Update from the prior state and the configuration (`schemaData`). Every
  operation returns the error, the new resource data and the list of API calls it made.
-/

namespace UptimeRobot

/-! ## Go standard library: `strings`, `strconv`, `fmt` -/

/-- Go `strings.HasPrefix(s, p)`: `s` begins with `p`. -/
def stringsHasPrefix (s p : String) : Bool :=
  p.toList.isPrefixOf s.toList

/-- The two sentinel errors a `*strconv.NumError` wraps. -/
inductive NumErrKind where
  | ErrSyntax
  | ErrRange
  deriving DecidableEq, Repr

/-- Go `*strconv.NumError`: the failing function, the input and the sentinel. -/
structure NumError where
  Func : String
  Num : String
  Err : NumErrKind
  deriving DecidableEq, Repr

def syntaxError (fn str : String) : NumError := ⟨fn, str, .ErrSyntax⟩

def rangeError (fn str : String) : NumError := ⟨fn, str, .ErrRange⟩

/-- Go `strconv.IntSize` on a 64-bit platform. -/
def IntSize : Nat := 64

def maxUint64 : Nat := 2 ^ 64 - 1

/-- Go `lower(c)` of strconv: `c | ('x' - 'X')`. -/
def lower (c : Nat) : Nat := c ||| 32

/-- The digit loop of Go `strconv.ParseUint(s, 10, 64)`, started at accumulator `n`.
Go returns a value and an error side by side; so does the model. -/
def parseUintLoop (s0 : String) : List Char → Nat → Nat × Option NumError
  | [], n => (n, none)
  | c :: cs, n =>
    let d : Option Nat :=
      if 48 ≤ c.toNat ∧ c.toNat ≤ 57 then some (c.toNat - 48)
      else if 97 ≤ lower c.toNat ∧ lower c.toNat ≤ 122 then some (lower c.toNat - 97 + 10)
      else none
    match d with
    | none => (0, some (syntaxError "ParseUint" s0))
    | some d =>
      if d ≥ 10 then (0, some (syntaxError "ParseUint" s0))
      else if n ≥ maxUint64 / 10 + 1 then (maxUint64, some (rangeError "ParseUint" s0))
      else
        let n10 := (n * 10) % 2 ^ 64
        let n1 := (n10 + d) % 2 ^ 64
        if n1 < n10 ∨ n1 > maxUint64 then (maxUint64, some (rangeError "ParseUint" s0))
        else parseUintLoop s0 cs n1

/-- Go `strconv.ParseUint(s, 10, 64)`. -/
def ParseUint (s : String) : Nat × Option NumError :=
  if s = "" then (0, some (syntaxError "ParseUint" s))
  else parseUintLoop s s.toList 0

/-- The tail of Go `strconv.ParseInt`: the range check of a 64-bit `int` on the unsigned
value `un` and the sign. -/
def parseIntRange (s0 : String) (neg : Bool) (un : Nat) : Int × Option NumError :=
  let cutoff : Nat := 2 ^ (IntSize - 1)
  if !neg && decide (un ≥ cutoff) then ((cutoff : Int) - 1, some (rangeError "ParseInt" s0))
  else if neg && decide (un > cutoff) then (-(cutoff : Int), some (rangeError "ParseInt" s0))
  else (if neg then -(un : Int) else (un : Int), none)

/-- The head of Go `strconv.ParseInt`: "pick off leading sign". The result is `neg` and
the rest of the string. -/
def pickSign : List Char → Bool × List Char
  | '+' :: cs => (false, cs)
  | '-' :: cs => (true, cs)
  | cs => (false, cs)

/-- Go `strconv.ParseInt(s, 10, 0)`: the sign is picked off, the rest is parsed unsigned
and the range of a 64-bit `int` is checked. A syntax error of `ParseUint` is returned at
once; after a range error `un` is the largest unsigned value and the range check fails. -/
def ParseInt (s : String) : Int × Option NumError :=
  if s = "" then (0, some (syntaxError "ParseInt" s))
  else
    let s0 := s
    let sign := pickSign s.toList
    let r := ParseUint (String.mk sign.2)
    match r.2 with
    | some e =>
      if e.Err ≠ .ErrRange then (0, some { e with Func := "ParseInt", Num := s0 })
      else parseIntRange s0 sign.1 r.1
    | none => parseIntRange s0 sign.1 r.1

/-- Go `strconv.Atoi(s)`, which is `ParseInt(s, 10, 0)` converted to `int`, the error
renamed to `Atoi`. -/
def Atoi (s : String) : Int × Option NumError :=
  let r := ParseInt s
  (r.1, r.2.map fun e => { e with Func := "Atoi" })

/-- The digit loop of Go `fmt`'s `fmtInteger` in base 10: the low digit of `u` is written
in front of `buf` until `u < 10`. The loop runs at most `u` times; `fuel` bounds it. -/
def fmtDigits : Nat → Nat → List Char → List Char
  | 0, u, buf => Char.ofNat (48 + u) :: buf
  | fuel + 1, u, buf =>
    if u ≥ 10 then
      let next := u / 10
      fmtDigits fuel next (Char.ofNat (48 + (u - next * 10)) :: buf)
    else Char.ofNat (48 + u) :: buf

/-- Go `fmt.Sprintf("%d", n)` for a signed integer `n`. -/
def SprintfD (n : Int) : String :=
  let negative := decide (n < 0)
  let u : Nat := n.natAbs
  let buf := fmtDigits u u []
  String.mk (if negative then '-' :: buf else buf)

/-! ## The words of the specification: "decimal string form", "standard integer parsing" -/

/-- A decimal digit, `'0'` to `'9'`. -/
def isDecimalDigit (c : Char) : Bool :=
  decide (48 ≤ c.toNat) && decide (c.toNat ≤ 57)

/-- A decimal integer string: an optional sign, then one decimal digit or more. -/
def isDecimalIntegerString (s : String) : Bool :=
  match s.toList with
  | [] => false
  | c :: cs =>
    if c = '+' ∨ c = '-' then !cs.isEmpty && cs.all isDecimalDigit
    else (c :: cs).all isDecimalDigit

/-! ## Terraform plugin SDK: `helper/schema` -/

/-- Go `schema.ValueType`, the types the two schemas use. -/
inductive ValueType where
  | TypeString
  | TypeInt
  | TypeBool
  | TypeMap
  | TypeSet
  deriving DecidableEq, Repr

/-- An `interface{}` held by the `map[string]interface{}` of a set element. -/
inductive Elem where
  | str (s : String)
  | int (n : Int)
  deriving DecidableEq, Repr

/-- An `interface{}` read from or written to the resource data. A Go map is the list of
its entries, read by the first entry of a key; `set l` is a `*schema.Set` whose `List()`
returns `l`; `list l` is the slice `[]map[string]interface{}` of the elements `l`. -/
inductive Value where
  | str (s : String)
  | int (n : Int)
  | bool (b : Bool)
  | map (m : List (String × String))
  | set (l : List (List (String × Elem)))
  | list (l : List (List (String × Elem)))
  deriving DecidableEq, Repr

/-- The schema type whose attribute takes the value in `d.Set`: a set attribute takes a
`*schema.Set` and a slice. -/
def Value.typ : Value → ValueType
  | .str _ => .TypeString
  | .int _ => .TypeInt
  | .bool _ => .TypeBool
  | .map _ => .TypeMap
  | .set _ => .TypeSet
  | .list _ => .TypeSet

/-- Go `ValueType.Zero()`. -/
def ValueType.Zero : ValueType → Value
  | .TypeString => .str ""
  | .TypeInt => .int 0
  | .TypeBool => .bool false
  | .TypeMap => .map []
  | .TypeSet => .set []

/-- Go `schema.Schema`, without `ValidateFunc` and `Elem` (they act before the CRUD
functions run). -/
structure Schema where
  Typ : ValueType
  Required : Bool := false
  Optional : Bool := false
  Computed : Bool := false
  ForceNew : Bool := false
  Sensitive : Bool := false
  Default : Option Value := none
  deriving DecidableEq, Repr

/-- Go `a < b` on strings, the order of `sort.Strings`: lexicographic. -/
def stringLess : List Char → List Char → Bool
  | [], [] => false
  | [], _ :: _ => true
  | _ :: _, [] => false
  | a :: as, b :: bs =>
    if a.toNat < b.toNat then true
    else if b.toNat < a.toNat then false
    else stringLess as bs

/-- Go `(*schema.Set).add` on the map `m` of a set, held as the list of its entries in the
order of the codes: an item whose code the set holds already is dropped. -/
def setAdd {α : Type} (code : String) (item : α) : List (String × α) → List (String × α)
  | [] => [(code, item)]
  | (c, v) :: rest =>
    if code = c then (c, v) :: rest
    else if stringLess code.toList c.toList then (code, item) :: (c, v) :: rest
    else (c, v) :: setAdd code item rest

/-- Go `(*schema.Set).List()` of the set that the SDK builds from the slice `items` in
`d.Set`: the items are added one by one under their code `hash(item)` and listed in the
sorted order of the codes. -/
def newSetList {α : Type} (hash : α → String) (items : List α) : List α :=
  (items.foldl (fun m item => setAdd (hash item) item m) []).map Prod.snd

/-- Go `*schema.ResourceData` of a resource with schema `sm`: the ID, the values that the
state, the diff and `d.Set` hold, newest first, and `setCode`, the code under which a
`*schema.Set` of the resource keeps an element (Go `Set.hash`; the schemas declare no `Set`
function, so it is the SDK's `HashResource` of the element, which is not modelled: every
function is allowed). -/
structure ResourceData (sm : List (String × Schema)) where
  id : String
  attrs : List (String × Value)
  setCode : List (String × Elem) → String

variable {sm : List (String × Schema)}

/-- Go `d.Id()`. -/
def ResourceData.Id (d : ResourceData sm) : String := d.id

/-- Go `d.SetId(v)`: the ID is set, and with it the attribute "id" that `d.Get` shows when
the schema declares it. -/
def ResourceData.SetId (d : ResourceData sm) (v : String) : ResourceData sm :=
  match sm.lookup "id" with
  | none => { d with id := v }
  | some _ => { d with id := v, attrs := ("id", .str v) :: d.attrs }

/-- Go `d.Get(key)`: the value the layers hold for `key`, and the zero value of the
schema's type for a key they do not hold. `none` is Go's `nil`, for a key the schema does
not declare. -/
def ResourceData.Get (d : ResourceData sm) (key : String) : Option Value :=
  match sm.lookup key with
  | none => none
  | some s =>
    match d.attrs.lookup key with
    | some v => some v
    | none => some s.Typ.Zero

/-- Go `d.Set(key, value)`: the SDK refuses a key the schema does not declare and a value
that is not of the schema's type, and then writes nothing; a slice written to a set
attribute is turned into a `*schema.Set`. -/
def ResourceData.Set (d : ResourceData sm) (key : String) (value : Value) :
    Option String × ResourceData sm :=
  match sm.lookup key with
  | none => (some ("Invalid address to set: " ++ key), d)
  | some s =>
    if value.typ = s.Typ then
      let stored : Value :=
        match value with
        | .list l => .set (newSetList d.setCode l)
        | v => v
      (none, { d with attrs := (key, stored) :: d.attrs })
    else (some (key ++ ": value of the wrong type"), d)

/-- The SDK's `ConfigFieldReader`: the value the configuration gives `key`, which is the
configured one and, for a key the configuration does not set, the schema's `Default`. -/
def configValue (s : Schema) (config : List (String × Value)) (key : String) : Option Value :=
  match config.lookup key with
  | some v => some v
  | none => s.Default

/-- The entry of the SDK's diff for one key of the schema, as `d.Get` reads it: the value
of the configuration; a key without one is removed (zero value) unless it is `Computed`,
which has no entry and keeps the value of the state. -/
def diffEntry (config : List (String × Value)) (e : String × Schema) :
    Option (String × Value) :=
  match configValue e.2 config e.1 with
  | some v => some (e.1, v)
  | none => if e.2.Computed then none else some (e.1, e.2.Typ.Zero)

/-- The SDK's `schemaMap.Diff`, as `d.Get` reads it: the entries of the keys of the
schema. -/
def schemaDiff (sm : List (String × Schema)) (config : List (String × Value)) :
    List (String × Value) :=
  sm.filterMap (diffEntry config)

/-- The SDK's `schemaMap.Data`: the resource data handed to Create and Update for the
prior state (`id`, `state`) and the configuration `config`; `d.Get` reads the diff over
the state. -/
def schemaData (sm : List (String × Schema)) (setCode : List (String × Elem) → String)
    (id : String) (state config : List (String × Value)) : ResourceData sm :=
  { id := id, attrs := schemaDiff sm config ++ state, setCode := setCode }

/-- Go `d.Get(key).(string)`. The SDK returns a value of the schema's type, so the
assertion holds for a key declared `TypeString`; the other cases are a Go panic. -/
def ResourceData.GetString (d : ResourceData sm) (key : String) : String :=
  match d.Get key with
  | some (.str s) => s
  | _ => ""

/-- Go `d.Get(key).(int)`. -/
def ResourceData.GetInt (d : ResourceData sm) (key : String) : Int :=
  match d.Get key with
  | some (.int n) => n
  | _ => 0

/-- Go `d.Get(key).(bool)`. -/
def ResourceData.GetBool (d : ResourceData sm) (key : String) : Bool :=
  match d.Get key with
  | some (.bool b) => b
  | _ => false

/-- Go `d.Get(key).(map[string]interface{})`, the values being strings. -/
def ResourceData.GetMap (d : ResourceData sm) (key : String) : List (String × String) :=
  match d.Get key with
  | some (.map m) => m
  | _ => []

/-- Go `d.Get(key).(*schema.Set).List()`; `Len()` is the length of this list. -/
def ResourceData.GetSetList (d : ResourceData sm) (key : String) :
    List (List (String × Elem)) :=
  match d.Get key with
  | some (.set l) => l
  | _ => []

/-- Go `v[key].(string)` on a `map[string]interface{}`. -/
def elemString (v : List (String × Elem)) (key : String) : String :=
  match v.lookup key with
  | some (.str s) => s
  | _ => ""

/-- Go `v[key].(int)` on a `map[string]interface{}`. -/
def elemInt (v : List (String × Elem)) (key : String) : Int :=
  match v.lookup key with
  | some (.int n) => n
  | _ => 0

/-- Go `m[k] = v` on a map held as the list of its entries. -/
def mapAssign (m : List (String × String)) (k v : String) : List (String × String) :=
  (k, v) :: m.filter fun e => e.1 ≠ k

/-- Go `out := make([]T, len(xs)); for k, v := range xs { out[k] = f(v) }`, from index
`k` on. -/
def rangeAssign {α β : Type} (f : α → β) : List α → Nat → List β → List β
  | [], _, out => out
  | v :: vs, k, out => rangeAssign f vs (k + 1) (out.set k (f v))

/-! ## The API package `internal/provider/api` -/

/-- Modelled from the spec: the declaration of `uptimerobotapi.MonitorRequestAlertContact`
(package `internal/provider/api`); its fields are the ones the provider assigns. -/
structure MonitorRequestAlertContact where
  ID : String := ""
  Threshold : Int := 0
  Recurrence : Int := 0
  deriving DecidableEq, Repr

/-- Modelled from the spec: the declaration of `uptimerobotapi.MonitorCreateRequest`
(package `internal/provider/api`); its fields are the ones `resourceMonitorCreate` assigns,
each at its Go zero value until assigned. -/
structure MonitorCreateRequest where
  FriendlyName : String := ""
  URL : String := ""
  Type_ : String := ""
  SubType : String := ""
  Port : Int := 0
  KeywordType : String := ""
  KeywordValue : String := ""
  HTTPMethod : String := ""
  HTTPUsername : String := ""
  HTTPPassword : String := ""
  HTTPAuthType : String := ""
  PostValue : String := ""
  PostType : String := ""
  PostContentType : String := ""
  Interval : Int := 0
  IgnoreSSLErrors : Bool := false
  AlertContacts : List MonitorRequestAlertContact := []
  CustomHTTPHeaders : List (String × String) := []
  deriving DecidableEq, Repr

/-- Modelled from the spec: the declaration of `uptimerobotapi.MonitorUpdateRequest`
(package `internal/provider/api`); its fields are the ones `resourceMonitorUpdate` assigns,
each at its Go zero value until assigned. -/
structure MonitorUpdateRequest where
  ID : Int := 0
  FriendlyName : String := ""
  URL : String := ""
  Type_ : String := ""
  SubType : String := ""
  Port : Int := 0
  KeywordType : String := ""
  KeywordValue : String := ""
  HTTPMethod : String := ""
  HTTPUsername : String := ""
  HTTPPassword : String := ""
  HTTPAuthType : String := ""
  Interval : Int := 0
  IgnoreSSLErrors : Bool := false
  AlertContacts : List MonitorRequestAlertContact := []
  CustomHTTPHeaders : List (String × String) := []
  deriving DecidableEq, Repr

/-- Modelled from the spec: the declaration of the alert contacts of
`uptimerobotapi.Monitor` (package `internal/provider/api`). -/
structure MonitorAlertContact where
  ID : String := ""
  Recurrence : Int := 0
  Threshold : Int := 0
  deriving DecidableEq, Repr

/-- Modelled from the spec: the declaration of `uptimerobotapi.Monitor` (package
`internal/provider/api`); its fields are the ones the provider reads, typed as the schema
attribute each is written to. -/
structure Monitor where
  ID : Int := 0
  FriendlyName : String := ""
  URL : String := ""
  Type_ : String := ""
  Status : String := ""
  Interval : Int := 0
  SubType : String := ""
  Port : Int := 0
  KeywordType : String := ""
  KeywordValue : String := ""
  HTTPUsername : String := ""
  HTTPPassword : String := ""
  HTTPAuthType : String := ""
  IgnoreSSLErrors : Bool := false
  CustomHTTPHeaders : List (String × String) := []
  AlertContacts : List MonitorAlertContact := []
  deriving DecidableEq, Repr

/-- Modelled from the spec: the declaration of `uptimerobotapi.AlertContact` (package
`internal/provider/api`), a comparable struct; its fields are the ones the data source
reads. -/
structure AlertContact where
  ID : String := ""
  FriendlyName : String := ""
  Type_ : String := ""
  Status : String := ""
  Value : String := ""
  deriving DecidableEq, Repr

/-- An `error` value returned by the API client, known by the text of its `Error()`. -/
structure ApiError where
  Error : String
  deriving DecidableEq, Repr

/-- Modelled from the spec: the interface `uptimerobotapi.UptimeRobotApiClient` (package
`internal/provider/api`). A provider function calls the client at most once, so the answer
of the API is a function of the request. -/
structure UptimeRobotApiClient where
  CreateMonitor : MonitorCreateRequest → Except ApiError Monitor
  GetMonitor : Int → Except ApiError Monitor
  UpdateMonitor : MonitorUpdateRequest → Except ApiError Monitor
  DeleteMonitor : Int → Option ApiError
  GetAlertContacts : Except ApiError (List AlertContact)

/-- A call made to the API client. -/
inductive ApiCall where
  | CreateMonitor (req : MonitorCreateRequest)
  | GetMonitor (id : Int)
  | UpdateMonitor (req : MonitorUpdateRequest)
  | DeleteMonitor (id : Int)
  | GetAlertContacts
  deriving DecidableEq, Repr

/-- A Go `error` a provider function returns. -/
inductive GoError where
  | num (e : NumError)
  | api (e : ApiError)
  | errorf (msg : String)
  deriving DecidableEq, Repr

/-- What a provider function leaves behind: the returned error (`none` is `nil`), the
resource data and the API calls made, in order. -/
structure Outcome (sm : List (String × Schema)) where
  err : Option GoError
  d : ResourceData sm
  calls : List ApiCall

/-! ## `resource_uptimerobot_monitor.go` -/

/-- The `Schema` of the resource that Go `resourceMonitor()` returns. -/
def resourceMonitor : List (String × Schema) := [
  ("friendly_name", { Typ := .TypeString, Required := true }),
  ("url", { Typ := .TypeString, Required := true }),
  ("type", { Typ := .TypeString, Required := true, ForceNew := true }),
  ("sub_type", { Typ := .TypeString, Optional := true }),
  ("port", { Typ := .TypeInt, Optional := true }),
  ("keyword_type", { Typ := .TypeString, Optional := true }),
  ("keyword_value", { Typ := .TypeString, Optional := true }),
  ("interval", { Typ := .TypeInt, Optional := true, Default := some (.int 300) }),
  ("http_method", { Typ := .TypeString, Optional := true }),
  ("http_username", { Typ := .TypeString, Optional := true }),
  ("http_password", { Typ := .TypeString, Optional := true, Sensitive := true }),
  ("http_auth_type", { Typ := .TypeString, Optional := true }),
  ("post_value", { Typ := .TypeString, Optional := true }),
  ("post_type", { Typ := .TypeString, Optional := true }),
  ("post_content_type", { Typ := .TypeString, Optional := true }),
  ("status", { Typ := .TypeString, Computed := true }),
  ("ignore_ssl_errors", { Typ := .TypeBool, Optional := true, Default := some (.bool false) }),
  ("alert_contact", { Typ := .TypeSet, Optional := true }),
  ("custom_http_headers", { Typ := .TypeMap, Optional := true })]

/-- The alert contacts loop of Go `resourceMonitorCreate` and `resourceMonitorUpdate`:
a slice of `Len()` zero contacts, the `k`-th then assigned from the `k`-th element of
`List()`. -/
def requestAlertContacts (l : List (List (String × Elem))) : List MonitorRequestAlertContact :=
  rangeAssign
    (fun v => ({ ID := elemString v "id", Threshold := elemInt v "threshold",
                 Recurrence := elemInt v "recurrence" } : MonitorRequestAlertContact))
    l 0 (List.replicate l.length {})

/-- The custom headers loop of Go `resourceMonitorCreate` and `resourceMonitorUpdate`. -/
def requestCustomHTTPHeaders (httpHeaderMap : List (String × String)) : List (String × String) :=
  httpHeaderMap.foldl (fun acc kv => mapAssign acc kv.1 kv.2) []

/-- Go `resourceMonitorCreate`, up to the call of the API: the request `req`. -/
def resourceMonitorCreateReq (d : ResourceData resourceMonitor) : MonitorCreateRequest :=
  let req : MonitorCreateRequest :=
    { FriendlyName := d.GetString "friendly_name"
      URL := d.GetString "url"
      Type_ := d.GetString "type" }
  let req :=
    if req.Type_ = "port" then
      { req with SubType := d.GetString "sub_type", Port := d.GetInt "port" }
    else if req.Type_ = "keyword" then
      let req := { req with KeywordType := d.GetString "keyword_type",
                            KeywordValue := d.GetString "keyword_value" }
      let method := d.GetString "http_method"
      let req := if method.length > 0 then { req with HTTPMethod := method }
                 else { req with HTTPMethod := "GET" }
      { req with HTTPUsername := d.GetString "http_username",
                 HTTPPassword := d.GetString "http_password",
                 HTTPAuthType := d.GetString "http_auth_type" }
    else if req.Type_ = "http" then
      let method := d.GetString "http_method"
      let req := if method.length > 0 then { req with HTTPMethod := method }
                 else { req with HTTPMethod := "GET" }
      { req with HTTPUsername := d.GetString "http_username",
                 HTTPPassword := d.GetString "http_password",
                 HTTPAuthType := d.GetString "http_auth_type",
                 PostValue := d.GetString "post_value",
                 PostType := d.GetString "post_type",
                 PostContentType := d.GetString "post_content_type" }
    else req
  let req := { req with Interval := d.GetInt "interval" }
  let req := { req with IgnoreSSLErrors := d.GetBool "ignore_ssl_errors" }
  let alertContacts := d.GetSetList "alert_contact"
  let req := { req with AlertContacts := requestAlertContacts alertContacts }
  let httpHeaderMap := d.GetMap "custom_http_headers"
  { req with CustomHTTPHeaders := requestCustomHTTPHeaders httpHeaderMap }

/-- The value `rawContacts` that Go `updateMonitorResource` builds from the alert contacts
of the monitor. -/
def rawContacts (m : Monitor) : List (List (String × Elem)) :=
  rangeAssign
    (fun v => [("id", Elem.str v.ID), ("recurrence", Elem.int v.Recurrence),
               ("threshold", Elem.int v.Threshold)])
    m.AlertContacts 0 (List.replicate m.AlertContacts.length [])

/-- Go `updateMonitorResource`. -/
def updateMonitorResource (d : ResourceData resourceMonitor) (m : Monitor) :
    Option GoError × ResourceData resourceMonitor :=
  let d := (d.Set "friendly_name" (.str m.FriendlyName)).2
  let d := (d.Set "url" (.str m.URL)).2
  let d := (d.Set "type" (.str m.Type_)).2
  let d := (d.Set "status" (.str m.Status)).2
  let d := (d.Set "interval" (.int m.Interval)).2
  let d := (d.Set "sub_type" (.str m.SubType)).2
  let d := (d.Set "port" (.int m.Port)).2
  let d := (d.Set "keyword_type" (.str m.KeywordType)).2
  let d := (d.Set "keyword_value" (.str m.KeywordValue)).2
  let d := (d.Set "http_username" (.str m.HTTPUsername)).2
  let d := (d.Set "http_password" (.str m.HTTPPassword)).2
  let d := (d.Set "ignore_ssl_errors" (.bool m.IgnoreSSLErrors)).2
  match d.Set "custom_http_headers" (.map m.CustomHTTPHeaders) with
  | (some err, d) =>
    (some (.errorf ("error setting custom_http_headers for resource " ++ d.Id ++ ": " ++ err)), d)
  | (none, d) =>
    match d.Set "alert_contact" (.list (rawContacts m)) with
    | (some err, d) =>
      (some (.errorf ("error setting alert_contact for resource " ++ d.Id ++ ": " ++ err)), d)
    | (none, d) => (none, d)

/-- Go `resourceMonitorCreate`. -/
def resourceMonitorCreate (d : ResourceData resourceMonitor) (m : UptimeRobotApiClient) :
    Outcome resourceMonitor :=
  let req := resourceMonitorCreateReq d
  match m.CreateMonitor req with
  | .error err => ⟨some (.api err), d, [.CreateMonitor req]⟩
  | .ok monitor =>
    let d := d.SetId (SprintfD monitor.ID)
    match updateMonitorResource d monitor with
    | (some err, d) => ⟨some err, d, [.CreateMonitor req]⟩
    | (none, d) => ⟨none, d, [.CreateMonitor req]⟩

/-- Go `resourceMonitorRead`. -/
def resourceMonitorRead (d : ResourceData resourceMonitor) (m : UptimeRobotApiClient) :
    Outcome resourceMonitor :=
  match Atoi d.Id with
  | (_, some err) => ⟨some (.num err), d, []⟩
  | (id, none) =>
    match m.GetMonitor id with
    | .error err =>
      if stringsHasPrefix err.Error "Monitor not found" then
        ⟨none, d.SetId "", [.GetMonitor id]⟩
      else ⟨some (.api err), d, [.GetMonitor id]⟩
    | .ok monitor =>
      match updateMonitorResource d monitor with
      | (some err, d) => ⟨some err, d, [.GetMonitor id]⟩
      | (none, d) => ⟨none, d, [.GetMonitor id]⟩

/-- Go `resourceMonitorUpdate`, from the parsed `id` up to the call of the API: the
request `req`. -/
def resourceMonitorUpdateReq (d : ResourceData resourceMonitor) (id : Int) :
    MonitorUpdateRequest :=
  let req : MonitorUpdateRequest :=
    { ID := id
      FriendlyName := d.GetString "friendly_name"
      URL := d.GetString "url"
      Type_ := d.GetString "type" }
  let req :=
    if req.Type_ = "port" then
      { req with SubType := d.GetString "sub_type", Port := d.GetInt "port" }
    else if req.Type_ = "keyword" then
      let req := { req with KeywordType := d.GetString "keyword_type",
                            KeywordValue := d.GetString "keyword_value" }
      let method := d.GetString "http_method"
      let req := if method.length > 0 then { req with HTTPMethod := method }
                 else { req with HTTPMethod := "GET" }
      { req with HTTPUsername := d.GetString "http_username",
                 HTTPPassword := d.GetString "http_password",
                 HTTPAuthType := d.GetString "http_auth_type" }
    else if req.Type_ = "http" then
      let method := d.GetString "http_method"
      let req := if method.length > 0 then { req with HTTPMethod := method }
                 else { req with HTTPMethod := "GET" }
      { req with HTTPUsername := d.GetString "http_username",
                 HTTPPassword := d.GetString "http_password",
                 HTTPAuthType := d.GetString "http_auth_type" }
    else req
  let req := { req with Interval := d.GetInt "interval" }
  let req := { req with IgnoreSSLErrors := d.GetBool "ignore_ssl_errors" }
  let req := { req with AlertContacts := requestAlertContacts (d.GetSetList "alert_contact") }
  let httpHeaderMap := d.GetMap "custom_http_headers"
  { req with CustomHTTPHeaders := requestCustomHTTPHeaders httpHeaderMap }

/-- Go `resourceMonitorUpdate`. -/
def resourceMonitorUpdate (d : ResourceData resourceMonitor) (m : UptimeRobotApiClient) :
    Outcome resourceMonitor :=
  match Atoi d.Id with
  | (_, some err) => ⟨some (.num err), d, []⟩
  | (id, none) =>
    let req := resourceMonitorUpdateReq d id
    match m.UpdateMonitor req with
    | .error err => ⟨some (.api err), d, [.UpdateMonitor req]⟩
    | .ok monitor =>
      match updateMonitorResource d monitor with
      | (some err, d) => ⟨some err, d, [.UpdateMonitor req]⟩
      | (none, d) => ⟨none, d, [.UpdateMonitor req]⟩

/-- Go `resourceMonitorDelete`. -/
def resourceMonitorDelete (d : ResourceData resourceMonitor) (m : UptimeRobotApiClient) :
    Outcome resourceMonitor :=
  match Atoi d.Id with
  | (_, some err) => ⟨some (.num err), d, []⟩
  | (id, none) =>
    match m.DeleteMonitor id with
    | some err => ⟨some (.api err), d, [.DeleteMonitor id]⟩
    | none => ⟨none, d, [.DeleteMonitor id]⟩

/-! ## `data_source_uptimerobot_alert_contact.go` -/

/-- The `Schema` of the resource that Go `dataSourceAlertContact()` returns. -/
def dataSourceAlertContact : List (String × Schema) := [
  ("friendly_name", { Typ := .TypeString, Optional := true }),
  ("id", { Typ := .TypeString, Computed := true }),
  ("type", { Typ := .TypeString, Computed := true }),
  ("status", { Typ := .TypeString, Computed := true }),
  ("value", { Typ := .TypeString, Optional := true })]

/-- The search loop of Go `dataSourceAlertContactRead`: `alertContact` is assigned the
first contact of the wanted name and the loop breaks. -/
def findAlertContact (friendlyName : String) : List AlertContact → AlertContact → AlertContact
  | [], alertContact => alertContact
  | a :: rest, alertContact =>
    if friendlyName ≠ "" ∧ a.FriendlyName = friendlyName then a
    else findAlertContact friendlyName rest alertContact

/-- Go `dataSourceAlertContactRead`. -/
def dataSourceAlertContactRead (d : ResourceData dataSourceAlertContact)
    (m : UptimeRobotApiClient) : Outcome dataSourceAlertContact :=
  match m.GetAlertContacts with
  | .error err => ⟨some (.api err), d, [.GetAlertContacts]⟩
  | .ok alertContacts =>
    let friendlyName := d.GetString "friendly_name"
    let alertContact := findAlertContact friendlyName alertContacts {}
    if alertContact = {} then
      ⟨some (.errorf ("failed to find alert contact by name " ++ friendlyName)), d,
        [.GetAlertContacts]⟩
    else
      let d := d.SetId alertContact.ID
      let d := (d.Set "friendly_name" (.str alertContact.FriendlyName)).2
      let d := (d.Set "type" (.str alertContact.Type_)).2
      let d := (d.Set "status" (.str alertContact.Status)).2
      let d := (d.Set "value" (.str alertContact.Value)).2
      ⟨none, d, [.GetAlertContacts]⟩


/-! ## Example inputs -/

/-- A set code for the examples: the alert contacts are kept under their `id`. -/
def idCode (v : List (String × Elem)) : String := elemString v "id"

/-- An API client whose every call fails with the error text `msg`. -/
def failingClient (msg : String) : UptimeRobotApiClient where
  CreateMonitor := fun _ => .error ⟨msg⟩
  GetMonitor := fun _ => .error ⟨msg⟩
  UpdateMonitor := fun _ => .error ⟨msg⟩
  DeleteMonitor := fun _ => some ⟨msg⟩
  GetAlertContacts := .error ⟨msg⟩

/-- An API client that answers every monitor call with the monitor `mon` and lists the
contacts `l`. -/
def constClient (mon : Monitor) (l : List AlertContact) : UptimeRobotApiClient where
  CreateMonitor := fun _ => .ok mon
  GetMonitor := fun _ => .ok mon
  UpdateMonitor := fun _ => .ok mon
  DeleteMonitor := fun _ => none
  GetAlertContacts := .ok l

/-! ## Lemmas on the standard library model -/

theorem digit_toNat (d : Nat) (h : d < 10) : (Char.ofNat (48 + d)).toNat = 48 + d := by
  interval_cases d <;> rfl

theorem parseUintLoop_digit (s0 : String) (d n : Nat) (cs : List Char) (hd : d < 10)
    (hn : n * 10 + d < 2 ^ 64) :
    parseUintLoop s0 (Char.ofNat (48 + d) :: cs) n = parseUintLoop s0 cs (n * 10 + d) := by
  have h1 : n * 10 < 2 ^ 64 := by omega
  have h2 : ¬ (n ≥ maxUint64 / 10 + 1) := by
    simp only [maxUint64]; omega
  have h3 : (n * 10) % 2 ^ 64 = n * 10 := Nat.mod_eq_of_lt h1
  have h4 : (n * 10 + d) % 2 ^ 64 = n * 10 + d := Nat.mod_eq_of_lt hn
  have h5 : ¬ (n * 10 + d < n * 10 ∨ n * 10 + d > maxUint64) := by
    simp only [maxUint64]; omega
  have h6 : ¬ (d ≥ 10) := by omega
  have h7 : 48 ≤ 48 + d ∧ 48 + d ≤ 57 := by omega
  simp only [parseUintLoop, digit_toNat d hd, h7, and_self, if_true, Nat.add_sub_cancel_left,
    h6, h2, if_false, h3, h4, h5]

theorem parseUintLoop_fmtDigits (s0 : String) :
    ∀ (fuel u : Nat) (buf : List Char), u ≤ fuel → u < 2 ^ 64 →
      parseUintLoop s0 (fmtDigits fuel u buf) 0 = parseUintLoop s0 buf u := by
  intro fuel
  induction fuel with
  | zero =>
    intro u buf hu _
    have : u = 0 := by omega
    subst this
    simpa [fmtDigits] using parseUintLoop_digit s0 0 0 buf (by omega) (by omega)
  | succ fuel ih =>
    intro u buf hu hlt
    by_cases h10 : u ≥ 10
    · have hstep := parseUintLoop_digit s0 (u - u / 10 * 10) (u / 10) buf (by omega) (by omega)
      have hih := ih (u / 10) (Char.ofNat (48 + (u - u / 10 * 10)) :: buf) (by omega) (by omega)
      simp only [fmtDigits, h10, if_true]
      rw [hih, hstep]
      congr 1
      omega
    · simp only [fmtDigits, h10, if_false]
      have := parseUintLoop_digit s0 u 0 buf (by omega) (by omega)
      simpa using this

theorem fmtDigits_head :
    ∀ (fuel u : Nat) (buf : List Char), u ≤ fuel →
      ∃ d tl, d < 10 ∧ fmtDigits fuel u buf = Char.ofNat (48 + d) :: tl := by
  intro fuel
  induction fuel with
  | zero =>
    intro u buf hu
    exact ⟨u, buf, by omega, by simp [fmtDigits]⟩
  | succ fuel ih =>
    intro u buf hu
    by_cases h10 : u ≥ 10
    · simp only [fmtDigits, h10, if_true]
      exact ih (u / 10) _ (by omega)
    · exact ⟨u, buf, by omega, by simp [fmtDigits, h10]⟩

theorem pickSign_digit (d : Nat) (hd : d < 10) (tl : List Char) :
    pickSign (Char.ofNat (48 + d) :: tl) = (false, Char.ofNat (48 + d) :: tl) := by
  interval_cases d <;> rfl

theorem ParseUint_fmtDigits (u : Nat) (hu : u < 2 ^ 64) :
    ParseUint (String.mk (fmtDigits u u [])) = (u, none) := by
  obtain ⟨d, tl, _, hd⟩ := fmtDigits_head u u [] (le_refl u)
  have hne : String.mk (fmtDigits u u []) ≠ "" := by
    intro h
    have := congrArg String.toList h
    simp [hd] at this
  simp only [ParseUint, hne, if_false]
  show parseUintLoop _ (fmtDigits u u []) 0 = (u, none)
  rw [parseUintLoop_fmtDigits _ u u [] (le_refl u) hu]
  simp [parseUintLoop]

/-- The parser reads back what the formatter wrote, for every 64-bit `int`. -/
theorem Atoi_SprintfD (n : Int) (hlo : -(2 : Int) ^ 63 ≤ n) (hhi : n < (2 : Int) ^ 63) :
    Atoi (SprintfD n) = (n, none) := by
  have hu : n.natAbs < 2 ^ 64 := by omega
  obtain ⟨d, tl, hd10, hd⟩ := fmtDigits_head n.natAbs n.natAbs [] (le_refl _)
  by_cases hneg : n < 0
  · have hs : SprintfD n = String.mk ('-' :: fmtDigits n.natAbs n.natAbs []) := by
      simp [SprintfD, hneg]
    have hne : String.mk ('-' :: fmtDigits n.natAbs n.natAbs []) ≠ "" := by
      intro h
      have := congrArg String.toList h
      simp at this
    have hsign : pickSign (String.mk ('-' :: fmtDigits n.natAbs n.natAbs [])).toList
        = (true, fmtDigits n.natAbs n.natAbs []) := rfl
    have hcut : ¬ (n.natAbs > 2 ^ (IntSize - 1)) := by
      simp only [IntSize]; omega
    simp only [Atoi, hs, ParseInt, hne, if_false, hsign, ParseUint_fmtDigits _ hu,
      parseIntRange, Bool.not_true, Bool.false_and, Bool.true_and, decide_eq_true_eq, hcut,
      if_true, Option.map_none', Bool.false_eq_true]
    congr 1
    omega
  · have hs : SprintfD n = String.mk (fmtDigits n.natAbs n.natAbs []) := by
      simp [SprintfD, hneg]
    have hne : String.mk (fmtDigits n.natAbs n.natAbs []) ≠ "" := by
      intro h
      have := congrArg String.toList h
      simp [hd] at this
    have hsign : pickSign (String.mk (fmtDigits n.natAbs n.natAbs [])).toList
        = (false, fmtDigits n.natAbs n.natAbs []) := by
      show pickSign (fmtDigits n.natAbs n.natAbs []) = _
      rw [hd]
      exact pickSign_digit d hd10 tl
    have hcut : ¬ (n.natAbs ≥ 2 ^ (IntSize - 1)) := by
      simp only [IntSize]; omega
    simp only [Atoi, hs, ParseInt, hne, if_false, hsign, ParseUint_fmtDigits _ hu,
      parseIntRange, Bool.not_false, Bool.true_and, Bool.false_and, decide_eq_true_eq, hcut,
      if_true, Option.map_none', Bool.false_eq_true]
    congr 1
    omega

theorem parseUintLoop_error_value (s0 : String) :
    ∀ (cs : List Char) (n : Nat) (e : NumError),
      (parseUintLoop s0 cs n).2 = some e → e.Err = .ErrRange →
      (parseUintLoop s0 cs n).1 = maxUint64 := by
  intro cs
  induction cs with
  | nil => intro n e h; simp [parseUintLoop] at h
  | cons c cs ih =>
    intro n e h hr
    simp only [parseUintLoop] at h ⊢
    generalize (if 48 ≤ c.toNat ∧ c.toNat ≤ 57 then some (c.toNat - 48)
      else if 97 ≤ lower c.toNat ∧ lower c.toNat ≤ 122 then some (lower c.toNat - 97 + 10)
      else none) = od at h ⊢
    cases od with
    | none =>
      simp only [syntaxError, Option.some.injEq] at h
      rw [← h] at hr
      simp at hr
    | some d =>
      simp only at h ⊢
      by_cases h1 : d ≥ 10
      · simp only [h1, if_true, syntaxError, Option.some.injEq] at h
        rw [← h] at hr
        simp at hr
      · simp only [h1, if_false] at h ⊢
        by_cases h2 : n ≥ maxUint64 / 10 + 1
        · simp only [h2, if_true]
        · simp only [h2, if_false] at h ⊢
          split
          · rfl
          · rename_i h3
            simp only [h3, if_false] at h
            exact ih _ e h hr

theorem parseUintLoop_ok_digits (s0 : String) :
    ∀ (cs : List Char) (n : Nat), (parseUintLoop s0 cs n).2 = none →
      cs.all isDecimalDigit = true := by
  intro cs
  induction cs with
  | nil => intro n _; rfl
  | cons c cs ih =>
    intro n h
    simp only [parseUintLoop] at h
    by_cases hdig : 48 ≤ c.toNat ∧ c.toNat ≤ 57
    · simp only [hdig, and_self, if_true] at h
      have hc : isDecimalDigit c = true := by simp [isDecimalDigit, hdig]
      simp only [List.all_cons, hc, Bool.true_and]
      split at h
      · simp at h
      · split at h
        · simp at h
        · split at h
          · simp at h
          · exact ih _ h
    · simp only [hdig, if_false] at h
      by_cases hlet : 97 ≤ lower c.toNat ∧ lower c.toNat ≤ 122
      · simp only [hlet, and_self, if_true] at h
        have : lower c.toNat - 97 + 10 ≥ 10 := by omega
        simp [this] at h
      · simp [hlet] at h

theorem parseIntRange_max (s0 : String) (neg : Bool) :
    (parseIntRange s0 neg maxUint64).2 ≠ none := by
  cases neg <;> simp [parseIntRange, maxUint64, IntSize]

theorem pickSign_cons (c : Char) (cs : List Char) :
    pickSign (c :: cs) = if c = '+' then (false, cs) else if c = '-' then (true, cs)
      else (false, c :: cs) := by
  by_cases h1 : c = '+'
  · subst h1; rfl
  · by_cases h2 : c = '-'
    · subst h2; rfl
    · simp only [h1, h2, if_false]
      unfold pickSign
      split
      · simp_all
      · simp_all
      · rfl

theorem ParseUint_ok_digits (cs : List Char) (h : (ParseUint (String.mk cs)).2 = none) :
    cs ≠ [] ∧ cs.all isDecimalDigit = true := by
  unfold ParseUint at h
  by_cases he : String.mk cs = ""
  · simp [he, syntaxError] at h
  · simp only [he, if_false] at h
    refine ⟨?_, parseUintLoop_ok_digits _ cs 0 h⟩
    intro hcs
    subst hcs
    exact he rfl

/-- Whatever `Atoi` accepts is a decimal integer string. -/
theorem Atoi_ok_decimal (s : String) (h : (Atoi s).2 = none) :
    isDecimalIntegerString s = true := by
  have hp : (ParseInt s).2 = none := by
    simpa [Atoi] using h
  unfold ParseInt at hp
  by_cases he : s = ""
  · simp [he, syntaxError] at hp
  · simp only [he, if_false] at hp
    have hu : (ParseUint (String.mk (pickSign s.toList).2)).2 = none := by
      cases hr : (ParseUint (String.mk (pickSign s.toList).2)).2 with
      | none => rfl
      | some e =>
        exfalso
        rw [hr] at hp
        simp only at hp
        by_cases hk : e.Err = .ErrRange
        · simp only [hk, ne_eq, not_true_eq_false, if_false] at hp
          have hv : (ParseUint (String.mk (pickSign s.toList).2)).1 = maxUint64 := by
            unfold ParseUint at hr ⊢
            by_cases he2 : String.mk (pickSign s.toList).2 = ""
            · rw [if_pos he2] at hr
              simp only [syntaxError, Option.some.injEq] at hr
              rw [← hr] at hk
              simp at hk
            · simp only [he2, if_false] at hr ⊢
              exact parseUintLoop_error_value _ _ _ e hr hk
          rw [hv] at hp
          exact parseIntRange_max _ _ hp
        · simp [hk] at hp
    obtain ⟨hne, hall⟩ := ParseUint_ok_digits _ hu
    unfold isDecimalIntegerString
    cases hl : s.toList with
    | nil =>
      rw [hl] at hne
      simp [pickSign] at hne
    | cons c cs =>
      rw [hl, pickSign_cons] at hne hall
      simp only
      by_cases h1 : c = '+'
      · simp only [h1, if_true] at hne hall
        simp [h1, hall, hne]
      · by_cases h2 : c = '-'
        · simp only [h2, if_true] at hne hall
          have h3 : ¬ ('-' = '+') := by decide
          simp only [h3, if_false, if_true] at hne hall
          simp [h2, hall, hne]
        · simp only [h1, h2, if_false] at hne hall
          simp only [h1, h2, or_self, if_false]
          exact hall

/-! ## Lemmas on the SDK model and the loops -/

theorem SetId_monitor (d : ResourceData resourceMonitor) (v : String) :
    d.SetId v = { d with id := v } := rfl

theorem schemaDiff_lookup_skip (config state : List (String × Value)) (key : String)
    (e : String × Schema) (rest : List (String × Schema)) (hne : key ≠ e.1) :
    (schemaDiff (e :: rest) config ++ state).lookup key
      = (schemaDiff rest config ++ state).lookup key := by
  have hb : (key == e.1) = false := by simpa using hne
  unfold schemaDiff
  rw [List.filterMap_cons]
  cases hd : diffEntry config e with
  | none => rfl
  | some p =>
    have hp : p.1 = e.1 := by
      unfold diffEntry at hd
      split at hd
      · simp only [Option.some.injEq] at hd
        rw [← hd]
      · split at hd
        · simp at hd
        · simp only [Option.some.injEq] at hd
          rw [← hd]
    obtain ⟨k, v⟩ := p
    simp only at hp
    subst hp
    simp only [List.cons_append, List.lookup_cons, hb]

/-- What `d.Get("interval")` reads from the resource data the SDK builds for the monitor
resource: the configured value, and 300 when the configuration sets none. -/
theorem schemaData_interval (setCode : List (String × Elem) → String) (rid : String)
    (state config : List (String × Value)) :
    (schemaData resourceMonitor setCode rid state config).attrs.lookup "interval"
      = some (match config.lookup "interval" with
              | some v => v
              | none => .int 300) := by
  show (schemaDiff resourceMonitor config ++ state).lookup "interval" = _
  unfold resourceMonitor
  rw [schemaDiff_lookup_skip _ _ _ _ _ (by decide), schemaDiff_lookup_skip _ _ _ _ _ (by decide),
    schemaDiff_lookup_skip _ _ _ _ _ (by decide), schemaDiff_lookup_skip _ _ _ _ _ (by decide),
    schemaDiff_lookup_skip _ _ _ _ _ (by decide), schemaDiff_lookup_skip _ _ _ _ _ (by decide),
    schemaDiff_lookup_skip _ _ _ _ _ (by decide)]
  unfold schemaDiff
  rw [List.filterMap_cons]
  cases hc : config.lookup "interval" with
  | none => simp [diffEntry, configValue, hc, List.lookup_cons]
  | some v => simp [diffEntry, configValue, hc, List.lookup_cons]

/-- The explicit effect of `updateMonitorResource`: no error, the ID kept, fourteen
attributes written. -/
theorem updateMonitorResource_eq (d : ResourceData resourceMonitor) (m : Monitor) :
    updateMonitorResource d m =
      (none, { id := d.id,
               setCode := d.setCode,
               attrs :=
                ("alert_contact", .set (newSetList d.setCode (rawContacts m))) ::
                ("custom_http_headers", .map m.CustomHTTPHeaders) ::
                ("ignore_ssl_errors", .bool m.IgnoreSSLErrors) ::
                ("http_password", .str m.HTTPPassword) ::
                ("http_username", .str m.HTTPUsername) ::
                ("keyword_value", .str m.KeywordValue) ::
                ("keyword_type", .str m.KeywordType) ::
                ("port", .int m.Port) ::
                ("sub_type", .str m.SubType) ::
                ("interval", .int m.Interval) ::
                ("status", .str m.Status) ::
                ("type", .str m.Type_) ::
                ("url", .str m.URL) ::
                ("friendly_name", .str m.FriendlyName) :: d.attrs }) := by
  rfl

/-- The request `resourceMonitorCreate` sends is the one `resourceMonitorCreateReq` builds,
and it is sent once. -/
theorem resourceMonitorCreate_calls (d : ResourceData resourceMonitor)
    (m : UptimeRobotApiClient) :
    (resourceMonitorCreate d m).calls = [.CreateMonitor (resourceMonitorCreateReq d)] := by
  simp only [resourceMonitorCreate, updateMonitorResource_eq]
  cases m.CreateMonitor (resourceMonitorCreateReq d) <;> rfl

/-- The request `resourceMonitorUpdate` sends for a parsed ID is the one
`resourceMonitorUpdateReq` builds, and it is sent once. -/
theorem resourceMonitorUpdate_calls (d : ResourceData resourceMonitor)
    (m : UptimeRobotApiClient) (id : Int) (hid : Atoi d.Id = (id, none)) :
    (resourceMonitorUpdate d m).calls = [.UpdateMonitor (resourceMonitorUpdateReq d id)] := by
  simp only [resourceMonitorUpdate, hid, updateMonitorResource_eq]
  cases m.UpdateMonitor (resourceMonitorUpdateReq d id) <;> rfl

theorem String_length_pos_iff (s : String) : s.length > 0 ↔ s ≠ "" := by
  constructor
  · intro h he
    subst he
    simp at h
  · intro h
    rcases s with ⟨l⟩
    cases l with
    | nil => exact absurd rfl h
    | cons c cs => simp [String.length]

/-! ## The claims -/

/-- C1: for a resource with a parseable ID and an error `e` returned by `GetMonitor`,
`resourceMonitorRead` returns nil with the resource ID set to the empty string exactly when
the text of `e` starts with "Monitor not found", and then writes no attribute; for every
other error it returns `e` itself and leaves the resource data as they were. -/
theorem C1_read_not_found (d : ResourceData resourceMonitor) (m : UptimeRobotApiClient)
    (id : Int) (e : ApiError) (hid : Atoi d.Id = (id, none))
    (hget : m.GetMonitor id = .error e) :
    (((resourceMonitorRead d m).err = none ∧ (resourceMonitorRead d m).d.Id = "") ↔
        stringsHasPrefix e.Error "Monitor not found" = true) ∧
    (stringsHasPrefix e.Error "Monitor not found" = true →
        (resourceMonitorRead d m).d.attrs = d.attrs) ∧
    (stringsHasPrefix e.Error "Monitor not found" = false →
        (resourceMonitorRead d m).err = some (.api e) ∧ (resourceMonitorRead d m).d = d) ∧
    (resourceMonitorRead d m).calls = [.GetMonitor id] := by
  have hread : resourceMonitorRead d m =
      if stringsHasPrefix e.Error "Monitor not found" then
        ⟨none, d.SetId "", [.GetMonitor id]⟩
      else ⟨some (.api e), d, [.GetMonitor id]⟩ := by
    simp only [resourceMonitorRead, hid, hget]
  rw [hread]
  cases hp : stringsHasPrefix e.Error "Monitor not found" <;>
    simp [SetId_monitor, ResourceData.Id]

/-- C1 at the ID "42": on the error "Monitor not found: 42" the ID is cleared and nil
returned; on the error "boom" the error itself is returned and the ID kept. -/
theorem C1_read_not_found_witness :
    Atoi "42" = (42, none) ∧
    ((resourceMonitorRead ⟨"42", [("type", .str "http")], idCode⟩
        (failingClient "Monitor not found: 42")).err = none ∧
      (resourceMonitorRead ⟨"42", [("type", .str "http")], idCode⟩
        (failingClient "Monitor not found: 42")).d.Id = "") ∧
    ((resourceMonitorRead ⟨"42", [("type", .str "http")], idCode⟩ (failingClient "boom")).err
        = some (.api ⟨"boom"⟩) ∧
      (resourceMonitorRead ⟨"42", [("type", .str "http")], idCode⟩ (failingClient "boom")).d
        = ⟨"42", [("type", .str "http")], idCode⟩) :=
  ⟨by decide,
    (C1_read_not_found ⟨"42", [("type", .str "http")], idCode⟩ (failingClient "Monitor not found: 42")
      42 ⟨"Monitor not found: 42"⟩ (by decide) rfl).1.mpr (by decide),
    (C1_read_not_found ⟨"42", [("type", .str "http")], idCode⟩ (failingClient "boom")
      42 ⟨"boom"⟩ (by decide) rfl).2.2.1 (by decide)⟩

/-- C2: after a successful `CreateMonitor` returning the monitor ID `n` (a 64-bit `int`),
`resourceMonitorCreate` has set the resource ID to the decimal string of `n`; `Atoi` reads
that string back as `n`, so `resourceMonitorRead`, `resourceMonitorUpdate` and
`resourceMonitorDelete` on a resource of that ID call the API with `n`. -/
theorem C2_id_round_trip (d : ResourceData resourceMonitor) (m : UptimeRobotApiClient)
    (monitor : Monitor)
    (hcreate : m.CreateMonitor (resourceMonitorCreateReq d) = .ok monitor)
    (hlo : -(2 : Int) ^ 63 ≤ monitor.ID) (hhi : monitor.ID < (2 : Int) ^ 63) :
    (resourceMonitorCreate d m).d.Id = SprintfD monitor.ID ∧
    isDecimalIntegerString (resourceMonitorCreate d m).d.Id = true ∧
    Atoi (resourceMonitorCreate d m).d.Id = (monitor.ID, none) ∧
    ∀ (d' : ResourceData resourceMonitor) (m' : UptimeRobotApiClient),
      d'.Id = (resourceMonitorCreate d m).d.Id →
      (resourceMonitorRead d' m').calls = [.GetMonitor monitor.ID] ∧
      (resourceMonitorUpdate d' m').calls =
        [.UpdateMonitor (resourceMonitorUpdateReq d' monitor.ID)] ∧
      (resourceMonitorUpdateReq d' monitor.ID).ID = monitor.ID ∧
      (resourceMonitorDelete d' m').calls = [.DeleteMonitor monitor.ID] := by
  have hid : (resourceMonitorCreate d m).d.Id = SprintfD monitor.ID := by
    simp only [resourceMonitorCreate, hcreate, updateMonitorResource_eq]
    rfl
  have hrt := Atoi_SprintfD monitor.ID hlo hhi
  refine ⟨hid, ?_, ?_, ?_⟩
  · rw [hid]
    exact Atoi_ok_decimal _ (by rw [hrt])
  · rw [hid]
    exact hrt
  · intro d' m' hd'
    have h' : Atoi d'.Id = (monitor.ID, none) := by rw [hd', hid]; exact hrt
    refine ⟨?_, ?_, ?_, ?_⟩
    rotate_left 2
    · simp only [resourceMonitorUpdateReq]
      split_ifs <;> rfl
    rotate_left 1
    · simp only [resourceMonitorRead, h', updateMonitorResource_eq]
      cases m'.GetMonitor monitor.ID with
      | error err => simp only; split <;> rfl
      | ok mon => rfl
    · simp only [resourceMonitorUpdate, h', updateMonitorResource_eq]
      cases m'.UpdateMonitor (resourceMonitorUpdateReq d' monitor.ID) with
      | error err => rfl
      | ok mon => rfl
    · simp only [resourceMonitorDelete, h']
      cases m'.DeleteMonitor monitor.ID with
      | some err => rfl
      | none => rfl

/-- C2 at the monitor IDs -42 and 0: the resource IDs are "-42" and "0", and they parse
back to -42 and 0. -/
theorem C2_id_round_trip_witness :
    ((resourceMonitorCreate ⟨"", [("type", .str "http")], idCode⟩
        (constClient { ID := -42 } [])).d.Id = "-42" ∧
      Atoi "-42" = (-42, none)) ∧
    ((resourceMonitorCreate ⟨"", [("type", .str "http")], idCode⟩
        (constClient { ID := 0 } [])).d.Id = "0" ∧
      Atoi "0" = (0, none)) :=
  ⟨⟨(C2_id_round_trip ⟨"", [("type", .str "http")], idCode⟩ (constClient { ID := -42 } [])
      { ID := -42 } rfl (by decide) (by decide)).1, by decide⟩,
    ⟨(C2_id_round_trip ⟨"", [("type", .str "http")], idCode⟩ (constClient { ID := 0 } [])
      { ID := 0 } rfl (by decide) (by decide)).1, by decide⟩⟩

/-- C3: for a resource whose ID is not a decimal integer string, and for any other ID
that `Atoi` refuses, each of `resourceMonitorRead`, `resourceMonitorUpdate` and
`resourceMonitorDelete` returns the error of `Atoi`, calls the API client not at all and
leaves the resource data as they were. -/
theorem C3_unparseable_id (d : ResourceData resourceMonitor) (m : UptimeRobotApiClient)
    (hbad : isDecimalIntegerString d.Id = false ∨ ∃ e, (Atoi d.Id).2 = some e) :
    ((∃ e, (resourceMonitorRead d m).err = some (.num e)) ∧
      (resourceMonitorRead d m).calls = [] ∧ (resourceMonitorRead d m).d = d) ∧
    ((∃ e, (resourceMonitorUpdate d m).err = some (.num e)) ∧
      (resourceMonitorUpdate d m).calls = [] ∧ (resourceMonitorUpdate d m).d = d) ∧
    ((∃ e, (resourceMonitorDelete d m).err = some (.num e)) ∧
      (resourceMonitorDelete d m).calls = [] ∧ (resourceMonitorDelete d m).d = d) := by
  have herr : ∃ v e, Atoi d.Id = (v, some e) := by
    cases h : (Atoi d.Id).2 with
    | none =>
      rcases hbad with hb | ⟨e, he⟩
      · have := Atoi_ok_decimal _ h
        rw [hb] at this
        exact absurd this (by decide)
      · rw [h] at he
        exact absurd he (by simp)
    | some e => exact ⟨(Atoi d.Id).1, e, Prod.ext rfl h⟩
  obtain ⟨v, e, he⟩ := herr
  refine ⟨?_, ?_, ?_⟩
  · simp [resourceMonitorRead, he]
  · simp [resourceMonitorUpdate, he]
  · simp [resourceMonitorDelete, he]

/-- C3 at the IDs "", "abc" and "12x", which are no decimal integer strings, and at
"9223372036854775808", which is out of the range of `int`: no call is made. -/
theorem C3_unparseable_id_witness :
    isDecimalIntegerString "" = false ∧ isDecimalIntegerString "abc" = false ∧
    isDecimalIntegerString "12x" = false ∧
    (resourceMonitorRead ⟨"", [], idCode⟩ (constClient {} [])).calls = [] ∧
    (resourceMonitorUpdate ⟨"abc", [], idCode⟩ (constClient {} [])).calls = [] ∧
    (resourceMonitorDelete ⟨"12x", [], idCode⟩ (constClient {} [])).calls = [] ∧
    (resourceMonitorRead ⟨"9223372036854775808", [], idCode⟩ (constClient {} [])).calls = [] :=
  ⟨by decide, by decide, by decide,
    (C3_unparseable_id ⟨"", [], idCode⟩ (constClient {} []) (Or.inl (by decide))).1.2.1,
    (C3_unparseable_id ⟨"abc", [], idCode⟩ (constClient {} []) (Or.inl (by decide))).2.1.2.1,
    (C3_unparseable_id ⟨"12x", [], idCode⟩ (constClient {} []) (Or.inl (by decide))).2.2.2.1,
    (C3_unparseable_id ⟨"9223372036854775808", [], idCode⟩ (constClient {} [])
      (Or.inr ⟨⟨"Atoi", "9223372036854775808", .ErrRange⟩, by decide⟩)).1.2.1⟩

/-- C4: for an attribute state of type "keyword" or "http", the request of
`resourceMonitorCreate` and the request of `resourceMonitorUpdate` have `HTTPMethod` "GET"
when the attribute `http_method` is empty and the attribute itself otherwise; so their
`HTTPMethod` is not empty. These requests are the ones sent to `CreateMonitor` and
`UpdateMonitor`. -/
theorem C4_http_method_default (d : ResourceData resourceMonitor) (id : Int)
    (htype : d.GetString "type" = "keyword" ∨ d.GetString "type" = "http") :
    (resourceMonitorCreateReq d).HTTPMethod =
      (if d.GetString "http_method" = "" then "GET" else d.GetString "http_method") ∧
    (resourceMonitorUpdateReq d id).HTTPMethod =
      (if d.GetString "http_method" = "" then "GET" else d.GetString "http_method") ∧
    (resourceMonitorCreateReq d).HTTPMethod ≠ "" ∧
    (resourceMonitorUpdateReq d id).HTTPMethod ≠ "" ∧
    (∀ m : UptimeRobotApiClient,
      (resourceMonitorCreate d m).calls = [.CreateMonitor (resourceMonitorCreateReq d)]) ∧
    (∀ m : UptimeRobotApiClient, Atoi d.Id = (id, none) →
      (resourceMonitorUpdate d m).calls
        = [.UpdateMonitor (resourceMonitorUpdateReq d id)]) := by
  have hc : (resourceMonitorCreateReq d).HTTPMethod =
      (if d.GetString "http_method" = "" then "GET" else d.GetString "http_method") := by
    rcases htype with h | h
    · by_cases hm : d.GetString "http_method" = ""
      · simp [resourceMonitorCreateReq, h, hm]
      · have hl := (String_length_pos_iff _).mpr hm
        simp [resourceMonitorCreateReq, h, hm, hl]
    · by_cases hm : d.GetString "http_method" = ""
      · simp [resourceMonitorCreateReq, h, hm]
      · have hl := (String_length_pos_iff _).mpr hm
        simp [resourceMonitorCreateReq, h, hm, hl]
  have hu : (resourceMonitorUpdateReq d id).HTTPMethod =
      (if d.GetString "http_method" = "" then "GET" else d.GetString "http_method") := by
    rcases htype with h | h
    · by_cases hm : d.GetString "http_method" = ""
      · simp [resourceMonitorUpdateReq, h, hm]
      · have hl := (String_length_pos_iff _).mpr hm
        simp [resourceMonitorUpdateReq, h, hm, hl]
    · by_cases hm : d.GetString "http_method" = ""
      · simp [resourceMonitorUpdateReq, h, hm]
      · have hl := (String_length_pos_iff _).mpr hm
        simp [resourceMonitorUpdateReq, h, hm, hl]
  refine ⟨hc, hu, ?_, ?_, fun m => resourceMonitorCreate_calls d m,
    fun m hid => resourceMonitorUpdate_calls d m id hid⟩
  · rw [hc]
    split
    · decide
    · assumption
  · rw [hu]
    split
    · decide
    · assumption

/-- C4 at type "http" without `http_method` and at type "keyword" with `http_method`
"POST". -/
theorem C4_http_method_default_witness :
    (resourceMonitorCreateReq ⟨"", [("type", .str "http")], idCode⟩).HTTPMethod = "GET" ∧
    (resourceMonitorUpdateReq
      ⟨"7", [("type", .str "keyword"), ("http_method", .str "POST")], idCode⟩ 7).HTTPMethod = "POST" :=
  ⟨(C4_http_method_default ⟨"", [("type", .str "http")], idCode⟩ 0 (Or.inr (by decide))).1,
    (C4_http_method_default ⟨"7", [("type", .str "keyword"), ("http_method", .str "POST")], idCode⟩ 7
      (Or.inl (by decide))).2.1⟩

/-- C5: the request of `resourceMonitorCreate` carries `SubType` and `Port` from the
attributes when the type is "port" and zero otherwise; `KeywordType` and `KeywordValue`
from the attributes when the type is "keyword" and zero otherwise; `HTTPMethod`,
`HTTPUsername`, `HTTPPassword` and `HTTPAuthType` zero unless the type is "keyword" or
"http"; `PostValue`, `PostType` and `PostContentType` from the attributes when the type is
"http" and zero otherwise; for any other type all eleven are zero. This request is the one
sent to `CreateMonitor`. -/
theorem C5_type_specific_fields (d : ResourceData resourceMonitor) :
    (∀ m : UptimeRobotApiClient,
      (resourceMonitorCreate d m).calls = [.CreateMonitor (resourceMonitorCreateReq d)]) ∧
    ((resourceMonitorCreateReq d).SubType =
        (if d.GetString "type" = "port" then d.GetString "sub_type" else "") ∧
      (resourceMonitorCreateReq d).Port =
        (if d.GetString "type" = "port" then d.GetInt "port" else 0)) ∧
    ((resourceMonitorCreateReq d).KeywordType =
        (if d.GetString "type" = "keyword" then d.GetString "keyword_type" else "") ∧
      (resourceMonitorCreateReq d).KeywordValue =
        (if d.GetString "type" = "keyword" then d.GetString "keyword_value" else "")) ∧
    (¬ (d.GetString "type" = "keyword" ∨ d.GetString "type" = "http") →
      (resourceMonitorCreateReq d).HTTPMethod = "" ∧
      (resourceMonitorCreateReq d).HTTPUsername = "" ∧
      (resourceMonitorCreateReq d).HTTPPassword = "" ∧
      (resourceMonitorCreateReq d).HTTPAuthType = "") ∧
    ((resourceMonitorCreateReq d).PostValue =
        (if d.GetString "type" = "http" then d.GetString "post_value" else "") ∧
      (resourceMonitorCreateReq d).PostType =
        (if d.GetString "type" = "http" then d.GetString "post_type" else "") ∧
      (resourceMonitorCreateReq d).PostContentType =
        (if d.GetString "type" = "http" then d.GetString "post_content_type" else "")) ∧
    (d.GetString "type" ≠ "port" → d.GetString "type" ≠ "keyword" →
      d.GetString "type" ≠ "http" →
      (resourceMonitorCreateReq d).SubType = "" ∧ (resourceMonitorCreateReq d).Port = 0 ∧
      (resourceMonitorCreateReq d).KeywordType = "" ∧
      (resourceMonitorCreateReq d).KeywordValue = "" ∧
      (resourceMonitorCreateReq d).HTTPMethod = "" ∧
      (resourceMonitorCreateReq d).HTTPUsername = "" ∧
      (resourceMonitorCreateReq d).HTTPPassword = "" ∧
      (resourceMonitorCreateReq d).HTTPAuthType = "" ∧
      (resourceMonitorCreateReq d).PostValue = "" ∧
      (resourceMonitorCreateReq d).PostType = "" ∧
      (resourceMonitorCreateReq d).PostContentType = "") := by
  refine ⟨fun m => resourceMonitorCreate_calls d m, ?_⟩
  by_cases hl : (d.GetString "http_method").length > 0 <;>
  by_cases hp : d.GetString "type" = "port" <;>
  by_cases hk : d.GetString "type" = "keyword" <;>
  by_cases hh : d.GetString "type" = "http" <;>
  simp_all [resourceMonitorCreateReq]

/-- C8: the schema declares `interval` an optional integer of default 300; in the resource
data that the SDK builds from a prior state and a configuration that does not set
`interval`, whatever the type and whatever the state holds, the requests that
`resourceMonitorCreate` and `resourceMonitorUpdate` send have `Interval` 300, and for a
configuration that sets the integer `v` they have `Interval` `v`. -/
theorem C8_interval_default (setCode : List (String × Elem) → String) (rid : String)
    (state config : List (String × Value)) (id : Int) :
    resourceMonitor.lookup "interval"
      = some { Typ := .TypeInt, Optional := true, Default := some (.int 300) } ∧
    (∀ m : UptimeRobotApiClient,
      (resourceMonitorCreate (schemaData resourceMonitor setCode rid state config) m).calls
        = [.CreateMonitor
            (resourceMonitorCreateReq (schemaData resourceMonitor setCode rid state config))]) ∧
    (∀ m : UptimeRobotApiClient,
      Atoi (schemaData resourceMonitor setCode rid state config).Id = (id, none) →
      (resourceMonitorUpdate (schemaData resourceMonitor setCode rid state config) m).calls
        = [.UpdateMonitor
            (resourceMonitorUpdateReq (schemaData resourceMonitor setCode rid state config)
              id)]) ∧
    (config.lookup "interval" = none →
      (resourceMonitorCreateReq
        (schemaData resourceMonitor setCode rid state config)).Interval = 300 ∧
      (resourceMonitorUpdateReq
        (schemaData resourceMonitor setCode rid state config) id).Interval = 300) ∧
    (∀ v : Int, config.lookup "interval" = some (.int v) →
      (resourceMonitorCreateReq
        (schemaData resourceMonitor setCode rid state config)).Interval = v ∧
      (resourceMonitorUpdateReq
        (schemaData resourceMonitor setCode rid state config) id).Interval = v) := by
  have hs : resourceMonitor.lookup "interval"
      = some { Typ := .TypeInt, Optional := true, Default := some (.int 300) } := by decide
  have hc : ∀ d : ResourceData resourceMonitor,
      (resourceMonitorCreateReq d).Interval = d.GetInt "interval" := by
    intro d
    simp only [resourceMonitorCreateReq]
  have hu : ∀ d : ResourceData resourceMonitor,
      (resourceMonitorUpdateReq d id).Interval = d.GetInt "interval" := by
    intro d
    simp only [resourceMonitorUpdateReq]
  have hget := schemaData_interval setCode rid state config
  refine ⟨hs, fun m => resourceMonitorCreate_calls _ m,
    fun m hid => resourceMonitorUpdate_calls _ m id hid, ?_, ?_⟩
  · intro hnone
    have : (schemaData resourceMonitor setCode rid state config).GetInt "interval" = 300 := by
      simp only [ResourceData.GetInt, ResourceData.Get, hs, hget, hnone]
    exact ⟨(hc _).trans this, (hu _).trans this⟩
  · intro v hv
    have : (schemaData resourceMonitor setCode rid state config).GetInt "interval" = v := by
      simp only [ResourceData.GetInt, ResourceData.Get, hs, hget, hv]
    exact ⟨(hc _).trans this, (hu _).trans this⟩

/-- C8 at an update after a refresh: the state holds the interval 60 and the configuration
sets none, so the request has `Interval` 300; a configuration that sets 120 gives 120. -/
theorem C8_interval_default_witness :
    (resourceMonitorUpdateReq
      (schemaData resourceMonitor idCode "7" [("interval", .int 60)] [("type", .str "ping")])
      7).Interval = 300 ∧
    (resourceMonitorCreateReq
      (schemaData resourceMonitor idCode "" []
        [("type", .str "http"), ("interval", .int 120)])).Interval = 120 :=
  ⟨((C8_interval_default idCode "7" [("interval", .int 60)] [("type", .str "ping")] 7).2.2.2.1
      (by decide)).2,
    ((C8_interval_default idCode "" [] [("type", .str "http"), ("interval", .int 120)]
      0).2.2.2.2 120 (by decide)).1⟩

theorem Get_congr {sm : List (String × Schema)} (d1 d2 : ResourceData sm) (key : String)
    (h : d1.attrs.lookup key = d2.attrs.lookup key) : d1.Get key = d2.Get key := by
  simp only [ResourceData.Get, h]

theorem updateMonitorResource_http_auth_type (d : ResourceData resourceMonitor) (mon : Monitor) :
    (updateMonitorResource d mon).2.attrs.lookup "http_auth_type"
      = d.attrs.lookup "http_auth_type" := by
  rw [updateMonitorResource_eq]
  simp [List.lookup]

/-- C6: `updateMonitorResource` leaves the attribute `http_auth_type` as it was, whatever
monitor the API returned; so do `resourceMonitorRead`, `resourceMonitorCreate` and
`resourceMonitorUpdate`. -/
theorem C6_http_auth_type_kept (d : ResourceData resourceMonitor) (mon : Monitor)
    (m : UptimeRobotApiClient) :
    (updateMonitorResource d mon).2.attrs.lookup "http_auth_type"
      = d.attrs.lookup "http_auth_type" ∧
    (updateMonitorResource d mon).2.Get "http_auth_type" = d.Get "http_auth_type" ∧
    (resourceMonitorRead d m).d.Get "http_auth_type" = d.Get "http_auth_type" ∧
    (resourceMonitorCreate d m).d.Get "http_auth_type" = d.Get "http_auth_type" ∧
    (resourceMonitorUpdate d m).d.Get "http_auth_type" = d.Get "http_auth_type" := by
  refine ⟨updateMonitorResource_http_auth_type d mon,
    Get_congr _ _ _ (updateMonitorResource_http_auth_type d mon), ?_, ?_, ?_⟩
  · apply Get_congr
    unfold resourceMonitorRead
    rcases hA : Atoi d.Id with ⟨v, _ | e⟩
    · simp only
      cases m.GetMonitor v with
      | error err => simp only; split <;> rfl
      | ok mon2 =>
        have := updateMonitorResource_http_auth_type d mon2
        simp only [updateMonitorResource_eq] at this ⊢
        exact this
    · rfl
  · apply Get_congr
    unfold resourceMonitorCreate
    simp only
    cases m.CreateMonitor (resourceMonitorCreateReq d) with
    | error err => rfl
    | ok mon2 =>
      have := updateMonitorResource_http_auth_type (d.SetId (SprintfD mon2.ID)) mon2
      simp only [updateMonitorResource_eq] at this ⊢
      exact this
  · apply Get_congr
    unfold resourceMonitorUpdate
    rcases hA : Atoi d.Id with ⟨v, _ | e⟩
    · simp only
      cases m.UpdateMonitor (resourceMonitorUpdateReq d v) with
      | error err => rfl
      | ok mon2 =>
        have := updateMonitorResource_http_auth_type d mon2
        simp only [updateMonitorResource_eq] at this ⊢
        exact this
    · rfl

/-- C10: from one attribute state the request `resourceMonitorUpdate` sends agrees with the
request `resourceMonitorCreate` sends on the fifteen fields they share; the request of
`resourceMonitorUpdate` does not depend on the attributes `post_value`, `post_type` and
`post_content_type`, which `resourceMonitorCreate` sends for the type "http" only. -/
theorem C10_update_agrees_with_create (d : ResourceData resourceMonitor) (id : Int) :
    ((∀ m : UptimeRobotApiClient,
        (resourceMonitorCreate d m).calls = [.CreateMonitor (resourceMonitorCreateReq d)]) ∧
      (∀ m : UptimeRobotApiClient, Atoi d.Id = (id, none) →
        (resourceMonitorUpdate d m).calls
          = [.UpdateMonitor (resourceMonitorUpdateReq d id)])) ∧
    ((resourceMonitorUpdateReq d id).FriendlyName = (resourceMonitorCreateReq d).FriendlyName ∧
      (resourceMonitorUpdateReq d id).URL = (resourceMonitorCreateReq d).URL ∧
      (resourceMonitorUpdateReq d id).Type_ = (resourceMonitorCreateReq d).Type_ ∧
      (resourceMonitorUpdateReq d id).SubType = (resourceMonitorCreateReq d).SubType ∧
      (resourceMonitorUpdateReq d id).Port = (resourceMonitorCreateReq d).Port ∧
      (resourceMonitorUpdateReq d id).KeywordType = (resourceMonitorCreateReq d).KeywordType ∧
      (resourceMonitorUpdateReq d id).KeywordValue = (resourceMonitorCreateReq d).KeywordValue ∧
      (resourceMonitorUpdateReq d id).HTTPMethod = (resourceMonitorCreateReq d).HTTPMethod ∧
      (resourceMonitorUpdateReq d id).HTTPUsername = (resourceMonitorCreateReq d).HTTPUsername ∧
      (resourceMonitorUpdateReq d id).HTTPPassword = (resourceMonitorCreateReq d).HTTPPassword ∧
      (resourceMonitorUpdateReq d id).HTTPAuthType = (resourceMonitorCreateReq d).HTTPAuthType ∧
      (resourceMonitorUpdateReq d id).Interval = (resourceMonitorCreateReq d).Interval ∧
      (resourceMonitorUpdateReq d id).IgnoreSSLErrors
        = (resourceMonitorCreateReq d).IgnoreSSLErrors ∧
      (resourceMonitorUpdateReq d id).AlertContacts = (resourceMonitorCreateReq d).AlertContacts ∧
      (resourceMonitorUpdateReq d id).CustomHTTPHeaders
        = (resourceMonitorCreateReq d).CustomHTTPHeaders) ∧
    (∀ d' : ResourceData resourceMonitor,
      (∀ key : String, key ≠ "post_value" → key ≠ "post_type" → key ≠ "post_content_type" →
        d'.Get key = d.Get key) →
      resourceMonitorUpdateReq d' id = resourceMonitorUpdateReq d id) ∧
    ((resourceMonitorCreateReq d).PostValue =
        (if d.GetString "type" = "http" then d.GetString "post_value" else "") ∧
      (resourceMonitorCreateReq d).PostType =
        (if d.GetString "type" = "http" then d.GetString "post_type" else "") ∧
      (resourceMonitorCreateReq d).PostContentType =
        (if d.GetString "type" = "http" then d.GetString "post_content_type" else "")) := by
  refine ⟨⟨fun m => resourceMonitorCreate_calls d m,
    fun m hid => resourceMonitorUpdate_calls d m id hid⟩, ?_, ?_, ?_⟩
  · by_cases hl : (d.GetString "http_method").length > 0 <;>
    by_cases hp : d.GetString "type" = "port" <;>
    by_cases hk : d.GetString "type" = "keyword" <;>
    by_cases hh : d.GetString "type" = "http" <;>
    simp_all [resourceMonitorCreateReq, resourceMonitorUpdateReq]
  · intro d' h
    have h1 := h "friendly_name" (by decide) (by decide) (by decide)
    have h2 := h "url" (by decide) (by decide) (by decide)
    have h3 := h "type" (by decide) (by decide) (by decide)
    have h4 := h "sub_type" (by decide) (by decide) (by decide)
    have h5 := h "port" (by decide) (by decide) (by decide)
    have h6 := h "keyword_type" (by decide) (by decide) (by decide)
    have h7 := h "keyword_value" (by decide) (by decide) (by decide)
    have h8 := h "http_method" (by decide) (by decide) (by decide)
    have h9 := h "http_username" (by decide) (by decide) (by decide)
    have h10 := h "http_password" (by decide) (by decide) (by decide)
    have h11 := h "http_auth_type" (by decide) (by decide) (by decide)
    have h12 := h "interval" (by decide) (by decide) (by decide)
    have h13 := h "ignore_ssl_errors" (by decide) (by decide) (by decide)
    have h14 := h "alert_contact" (by decide) (by decide) (by decide)
    have h15 := h "custom_http_headers" (by decide) (by decide) (by decide)
    simp only [resourceMonitorUpdateReq, ResourceData.GetString, ResourceData.GetInt,
      ResourceData.GetBool, ResourceData.GetMap, ResourceData.GetSetList,
      h1, h2, h3, h4, h5, h6, h7, h8, h9, h10, h11, h12, h13, h14, h15]
  · by_cases hl : (d.GetString "http_method").length > 0 <;>
    by_cases hp : d.GetString "type" = "port" <;>
    by_cases hk : d.GetString "type" = "keyword" <;>
    by_cases hh : d.GetString "type" = "http" <;>
    simp_all [resourceMonitorCreateReq]

theorem findAlertContact_eq (name : String) (hname : name ≠ "") :
    ∀ (l : List AlertContact) (z : AlertContact),
      findAlertContact name l z
        = ((l.find? fun a => decide (a.FriendlyName = name)).getD z) := by
  intro l
  induction l with
  | nil => intro z; rfl
  | cons a rest ih =>
    intro z
    by_cases ha : a.FriendlyName = name
    · simp [findAlertContact, hname, ha]
    · simp [findAlertContact, ha, List.find?_cons, ih z]

theorem findAlertContact_empty (l : List AlertContact) (z : AlertContact) :
    findAlertContact "" l z = z := by
  induction l with
  | nil => rfl
  | cons a rest ih => simp [findAlertContact, ih]

theorem dataSourceAlertContactRead_found (d : ResourceData dataSourceAlertContact)
    (m : UptimeRobotApiClient) (l : List AlertContact) (a : AlertContact)
    (hget : m.GetAlertContacts = .ok l) (hname : d.GetString "friendly_name" ≠ "")
    (hfind : (l.find? fun a => decide (a.FriendlyName = d.GetString "friendly_name")) = some a) :
    dataSourceAlertContactRead d m =
      ⟨none,
        { id := a.ID,
          setCode := d.setCode,
          attrs := ("value", .str a.Value) :: ("status", .str a.Status) ::
            ("type", .str a.Type_) :: ("friendly_name", .str a.FriendlyName) ::
            ("id", .str a.ID) :: d.attrs },
        [.GetAlertContacts]⟩ := by
  have hfn : a.FriendlyName = d.GetString "friendly_name" := by
    have := List.find?_some hfind
    simpa using this
  have hne : a ≠ {} := by
    intro h
    rw [h] at hfn
    exact hname hfn.symm
  simp only [dataSourceAlertContactRead, hget, findAlertContact_eq _ hname, hfind,
    Option.getD_some, hne, if_false]
  rfl

theorem dataSourceAlertContactRead_missing (d : ResourceData dataSourceAlertContact)
    (m : UptimeRobotApiClient) (l : List AlertContact)
    (hget : m.GetAlertContacts = .ok l)
    (hmiss : d.GetString "friendly_name" = "" ∨
      (l.find? fun a => decide (a.FriendlyName = d.GetString "friendly_name")) = none) :
    dataSourceAlertContactRead d m =
      ⟨some (.errorf ("failed to find alert contact by name " ++ d.GetString "friendly_name")),
        d, [.GetAlertContacts]⟩ := by
  by_cases hname : d.GetString "friendly_name" = ""
  · simp only [dataSourceAlertContactRead, hget, hname, findAlertContact_empty, if_true]
  · rcases hmiss with h | h
    · exact absurd h hname
    · simp only [dataSourceAlertContactRead, hget, findAlertContact_eq _ hname, h,
        Option.getD_none, if_true]

/-- C9: when `GetAlertContacts` returns the list `l`, `dataSourceAlertContactRead` succeeds
exactly when `friendly_name` is not empty and some contact of `l` has that `FriendlyName`;
on success the resource ID, `friendly_name`, `type`, `status` and `value` are those of the
first such contact of `l`; with an empty `friendly_name` it returns the error "failed to
find alert contact by name", and on failure the resource data are as they were. -/
theorem C9_alert_contact_by_name (d : ResourceData dataSourceAlertContact)
    (m : UptimeRobotApiClient) (l : List AlertContact) (hget : m.GetAlertContacts = .ok l) :
    ((dataSourceAlertContactRead d m).err = none ↔
      (d.GetString "friendly_name" ≠ "" ∧
        ∃ a ∈ l, a.FriendlyName = d.GetString "friendly_name")) ∧
    (∀ a : AlertContact, d.GetString "friendly_name" ≠ "" →
      (l.find? fun a => decide (a.FriendlyName = d.GetString "friendly_name")) = some a →
      (dataSourceAlertContactRead d m).err = none ∧
      (dataSourceAlertContactRead d m).d.Id = a.ID ∧
      (dataSourceAlertContactRead d m).d.GetString "friendly_name" = a.FriendlyName ∧
      (dataSourceAlertContactRead d m).d.GetString "type" = a.Type_ ∧
      (dataSourceAlertContactRead d m).d.GetString "status" = a.Status ∧
      (dataSourceAlertContactRead d m).d.GetString "value" = a.Value) ∧
    (d.GetString "friendly_name" = "" →
      (dataSourceAlertContactRead d m).err
        = some (.errorf "failed to find alert contact by name ")) ∧
    ((dataSourceAlertContactRead d m).err ≠ none →
      (dataSourceAlertContactRead d m).err
        = some (.errorf ("failed to find alert contact by name "
            ++ d.GetString "friendly_name")) ∧
      (dataSourceAlertContactRead d m).d = d) := by
  have hfound := dataSourceAlertContactRead_found d m l
  have hmiss := dataSourceAlertContactRead_missing d m l hget
  refine ⟨?_, ?_, ?_, ?_⟩
  · constructor
    · intro herr
      by_cases hname : d.GetString "friendly_name" = ""
      · rw [hmiss (Or.inl hname)] at herr
        simp at herr
      · refine ⟨hname, ?_⟩
        cases hf : (l.find? fun a => decide (a.FriendlyName = d.GetString "friendly_name")) with
        | none =>
          rw [hmiss (Or.inr hf)] at herr
          simp at herr
        | some a =>
          refine ⟨a, List.mem_of_find?_eq_some hf, ?_⟩
          simpa using List.find?_some hf
    · rintro ⟨hname, a, hal, hafn⟩
      cases hf : (l.find? fun a => decide (a.FriendlyName = d.GetString "friendly_name")) with
      | none =>
        have := List.find?_eq_none.mp hf a hal
        simp [hafn] at this
      | some b => rw [hfound b hget hname hf]
  · intro a hname hf
    rw [hfound a hget hname hf]
    refine ⟨rfl, rfl, rfl, rfl, rfl, rfl⟩
  · intro hname
    rw [hmiss (Or.inl hname), hname]
    rfl
  · intro herr
    by_cases hname : d.GetString "friendly_name" = ""
    · rw [hmiss (Or.inl hname)]
      exact ⟨rfl, rfl⟩
    · cases hf : (l.find? fun a => decide (a.FriendlyName = d.GetString "friendly_name")) with
      | none =>
        rw [hmiss (Or.inr hf)]
        exact ⟨rfl, rfl⟩
      | some a =>
        rw [hfound a hget hname hf] at herr
        exact absurd rfl herr

/-- C9 on a list with two contacts named "b": the first one, of ID "2", is taken. -/
theorem C9_alert_contact_by_name_witness :
    (dataSourceAlertContactRead ⟨"", [("friendly_name", .str "b")], idCode⟩
      (constClient {} [⟨"1", "a", "t1", "s1", "v1"⟩, ⟨"2", "b", "t2", "s2", "v2"⟩,
        ⟨"3", "b", "t3", "s3", "v3"⟩])).d.Id = "2" :=
  ((C9_alert_contact_by_name ⟨"", [("friendly_name", .str "b")], idCode⟩
      (constClient {} [⟨"1", "a", "t1", "s1", "v1"⟩, ⟨"2", "b", "t2", "s2", "v2"⟩,
        ⟨"3", "b", "t3", "s3", "v3"⟩]) _ rfl).2.1 ⟨"2", "b", "t2", "s2", "v2"⟩
      (by decide) (by decide)).2.1

end UptimeRobot
